import Mathlib

/-!
# Verification of the google-photos-magic client core

Shallow embedding, in Lean 4, of the core logic of the `google-photos-magic`
Go command-line client: the album HTTP repository
(`internal/repository/google_photos_repository.go`), the OAuth use case
(`internal/usecase/oauth_usecase.go`), the OAuth repository
(`internal/repository/oauth_repository.go`) and the CLI delivery handler
(`internal/delivery/cli_handler.go`).

External effects (the HTTP client `client.Do`, JSON decoding, the
file system, the wall clock) are passed in explicitly as values or
functions, so every Go function becomes a total executable Lean
function of its inputs and the observable effects (channel sends,
calls issued, file states) become explicit parts of the result.
-/

set_option autoImplicit false

namespace GPhotosMagic

/-- `domain.Album` (internal/domain/album.go): a Google Photos album. -/
structure Album where
  id : String
  title : String
deriving DecidableEq

/-- `domain.AlbumsResponse`: one page of the album listing. -/
structure AlbumsResponse where
  albums : List Album
  nextPageToken : String
deriving DecidableEq

/-- An HTTP response as seen by the repository layer: the status code and
the raw body handed to the JSON decoder. -/
structure HttpResponse where
  statusCode : Nat
  body : String
deriving DecidableEq

/-- The failure classes of the album repository
(`google_photos_repository.go`): a network-level failure of `client.Do`
(`transport`), a rejected status code (`apiStatus`), or a JSON decoding
failure (`decodeFail`). Each carries the wrapped message or the status. -/
inductive RepoError where
  | transport (msg : String)
  | apiStatus (status : Nat)
  | decodeFail (msg : String)
deriving DecidableEq

/-- `readAndParseResponse` (google_photos_repository.go, lines 129-148):
rejects any response whose status code is not exactly 200
(`resp.StatusCode != http.StatusOK`), then decodes the body.
The JSON decoder `json.Unmarshal` is passed in as `decode`
(JSON (de)serialization is an external standard facility). -/
def readAndParseResponse (decode : String → Option AlbumsResponse)
    (resp : HttpResponse) : Except RepoError AlbumsResponse :=
  if resp.statusCode ≠ 200 then
    Except.error (RepoError.apiStatus resp.statusCode)
  else
    match decode resp.body with
    | none => Except.error (RepoError.decodeFail "failed to decode JSON")
    | some data => Except.ok data

/-- `ListAlbums` (google_photos_repository.go, lines 31-39): issues the GET
via `makeAlbumsRequest` (whose outcome is `doResult`), wraps a transport
failure, and otherwise delegates to `readAndParseResponse`. -/
def ListAlbums (decode : String → Option AlbumsResponse)
    (doResult : Except String HttpResponse) : Except RepoError AlbumsResponse :=
  match doResult with
  | Except.error m =>
      Except.error (RepoError.transport ("failed to make albums request: " ++ m))
  | Except.ok resp => readAndParseResponse decode resp

/-- `FetchNextPage` (google_photos_repository.go, lines 105-115): GET with
the page-token query parameter; same shape as `ListAlbums`. -/
def FetchNextPage (decode : String → Option AlbumsResponse)
    (doResult : Except String HttpResponse) : Except RepoError AlbumsResponse :=
  match doResult with
  | Except.error m =>
      Except.error (RepoError.transport ("failed to fetch next page: " ++ m))
  | Except.ok resp => readAndParseResponse decode resp

/-- `GetAlbumByID` (google_photos_repository.go, lines 42-68): GET of a
single album; rejects any status other than 200, then decodes one `Album`. -/
def GetAlbumByID (decode : String → Option Album)
    (doResult : Except String HttpResponse) : Except RepoError Album :=
  match doResult with
  | Except.error m =>
      Except.error (RepoError.transport ("failed to fetch album: " ++ m))
  | Except.ok resp =>
      if resp.statusCode ≠ 200 then
        Except.error (RepoError.apiStatus resp.statusCode)
      else
        match decode resp.body with
        | none => Except.error (RepoError.decodeFail "failed to decode album")
        | some album => Except.ok album

/-- `CreateAlbum` (google_photos_repository.go, lines 71-102): POST of
`{album: {title}}`; wraps a transport failure and then decodes the body
directly — the source performs no status-code check on this path. -/
def CreateAlbum (decode : String → Option Album)
    (doResult : Except String HttpResponse) : Except RepoError Album :=
  match doResult with
  | Except.error m =>
      Except.error (RepoError.transport ("create album failed: " ++ m))
  | Except.ok resp =>
      match decode resp.body with
      | none => Except.error (RepoError.decodeFail "failed to decode response")
      | some album => Except.ok album

/-! ## OAuth data model and token store -/

/-- `oauth2.Token` (golang.org/x/oauth2): the persisted credential.
`expiry` is the token's expiry instant in Unix seconds; `none` models the
Go zero `time.Time` (`Expiry.IsZero()`, "no expiry set", e.g. the field was
absent from `token.json`). `refreshToken` is the Go string field, `""`
meaning absent. -/
structure OToken where
  accessToken : String
  tokenType : String
  expiry : Option Int
  refreshToken : String
deriving DecidableEq

/-- The `expiryDelta` constant of golang.org/x/oauth2 (10 seconds): a token
is reported expired slightly before its actual expiry instant. -/
def expiryDelta : Int := 10

/-- `Token.expired` of golang.org/x/oauth2 (external library dependency of
`AuthenticateClient`): a zero expiry never expires, otherwise the token is
expired once `Expiry - expiryDelta` is before the current time `now`
(Unix seconds). -/
def tokenExpired (tok : OToken) (now : Int) : Bool :=
  match tok.expiry with
  | none => false
  | some e => decide (e - expiryDelta < now)

/-- `Token.Valid` of golang.org/x/oauth2: non-empty access token and not
expired (the `t != nil` guard is vacuous in this embedding). -/
def tokenValid (tok : OToken) (now : Int) : Bool :=
  tok.accessToken ≠ "" && !tokenExpired tok now

/-- `oauth2.Config` (the OAuth client configuration): only its identity
matters to the claims, so only the client id is carried. -/
structure OAuthConfig where
  clientID : String
deriving DecidableEq

/-- `LoadToken` (oauth_repository.go, lines 50-61): opens `token.json`
(outcome `openResult`: the file's contents, or the `os.Open` error for a
missing file) and JSON-decodes it (`decodeToken`, `json.Decoder.Decode`);
a malformed file yields the decoder's error. -/
def LoadToken (openResult : Except String String)
    (decodeToken : String → Option OToken) : Except String OToken :=
  match openResult with
  | Except.error e => Except.error e
  | Except.ok contents =>
      match decodeToken contents with
      | none => Except.error "invalid character in token file"
      | some tok => Except.ok tok

/-- `SaveToken` (oauth_repository.go, lines 63-72) with the file system
explicit. `file0` is the token file's content before the call (`none` = no
file). `os.Create` truncates the file to empty; `json.Encoder.Encode` then
writes the complete encoded record (`encode tok`). `createOk` / `writeOk`
are the outcomes of those two I/O steps. The second component is the
chronological list of every file content visible to a concurrent reader,
starting with the initial one. -/
def SaveToken (encode : OToken → String) (tok : OToken)
    (file0 : Option String) (createOk writeOk : Bool) :
    Except String Unit × List (Option String) :=
  if createOk then
    if writeOk then
      (Except.ok (), [file0, some "", some (encode tok)])
    else
      (Except.error "write failed", [file0, some ""])
  else
    (Except.error "failed to create token file", [file0])

/-! ## OAuth use case (`internal/usecase/oauth_usecase.go`) -/

/-- Which branch of `AuthenticateClient` fired, mirroring its log lines:
the config lookup failed, no token could be loaded ("No existing token
found, starting OAuth flow..."), a valid token was found, or the token was
expired ("Token expired, starting OAuth flow..."). The latter three all
return the config without error. -/
inductive AuthPath where
  | configError
  | noToken
  | validToken
  | expiredToken
deriving DecidableEq

/-- The observable outcome of `AuthenticateClient`: the returned value,
the branch taken, and the number of refresh-token exchanges issued. -/
structure AuthClientResult where
  returned : Except String OAuthConfig
  path : AuthPath
  refreshCalls : Nat

/-- `AuthenticateClient` (oauth_usecase.go, lines 27-51): gets the config
(`configResult`, from `GetClient`), propagating its error; then tries
`LoadToken` (`loadResult`) — any load failure is swallowed and the config
is returned; then checks `token.Valid()` against the clock `now`. The
source contains no refresh-token exchange on any branch, so
`refreshCalls = 0` throughout. -/
def AuthenticateClient (configResult : Except String OAuthConfig)
    (loadResult : Except String OToken) (now : Int) : AuthClientResult :=
  match configResult with
  | Except.error e => ⟨Except.error e, AuthPath.configError, 0⟩
  | Except.ok config =>
      match loadResult with
      | Except.error _ => ⟨Except.ok config, AuthPath.noToken, 0⟩
      | Except.ok token =>
          if tokenValid token now then
            ⟨Except.ok config, AuthPath.validToken, 0⟩
          else
            ⟨Except.ok config, AuthPath.expiredToken, 0⟩

/-- The observable outcome of `CompleteAuthentication`: the returned value,
the token file's abstract content after the call, and how many exchange /
save calls were issued. -/
structure CompleteAuthResult where
  returned : Except String Unit
  stored : Option OToken
  exchangeCalls : Nat
  saveCalls : Nat

/-- `CompleteAuthentication` (oauth_usecase.go, lines 53-71): exchanges the
code for a token (`exchange`, the `ExchangeCode` collaborator), returning
the exchange error unchanged on failure, and only then saves it (`save`,
the `SaveToken` collaborator), returning the save error unchanged on
failure. `stored0` is the persisted token before the call. (The
intra-file states of a failing save are modelled separately by
`SaveToken`.) -/
def CompleteAuthentication (exchange : String → Except String OToken)
    (save : OToken → Except String Unit) (stored0 : Option OToken)
    (code : String) : CompleteAuthResult :=
  match exchange code with
  | Except.error e => ⟨Except.error e, stored0, 1, 0⟩
  | Except.ok token =>
      match save token with
      | Except.error e => ⟨Except.error e, stored0, 1, 1⟩
      | Except.ok _ => ⟨Except.ok (), some token, 1, 1⟩

/-! ## The local callback server flow (`CompleteAuthenticationWithServer`,
oauth_usecase.go, lines 74-171) -/

/-- Little-endian decimal digits of `n`, with explicit fuel so the
recursion is structural; `fuel ≥ n` suffices. -/
def decDigitsRev : Nat → Nat → List Nat
  | 0, _ => []
  | fuel + 1, n => if n = 0 then [] else n % 10 :: decDigitsRev fuel (n / 10)

/-- The decimal rendering of a natural number, embedding Go's
`fmt.Sprintf("%d", n)` for the non-negative values produced by
`time.Now().Unix()`. -/
def decimalOf (n : Nat) : String :=
  if n = 0 then "0"
  else String.mk ((decDigitsRev n n).reverse.map Nat.digitChar)

/-- The state string minted by `CompleteAuthenticationWithServer`
(oauth_usecase.go, line 78):
`"random-state-" + fmt.Sprintf("%d", time.Now().Unix())`, as a function of
the clock reading `unixSeconds` at the moment of the call. -/
def mintState (unixSeconds : Nat) : String :=
  "random-state-" ++ decimalOf unixSeconds

/-- One incoming HTTP request to the local listener: the URL path and the
`error`, `state` and `code` query parameters (`query.Get` yields `""` for
an absent parameter). -/
structure CallbackRequest where
  path : String
  error : String
  state : String
  code : String
deriving DecidableEq

/-- A value sent on one of the two outcome channels: an error message on
`errChan` or an authorization code on `codeChan`. -/
inductive ChanMsg where
  | errMsg (e : String)
  | codeMsg (c : String)
deriving DecidableEq

/-- What the callback handler did for one request: the channel send it
performed (if any) and the HTTP response it explicitly wrote
(status code and body; `none` when the handler returned without
writing, as the three error branches do). -/
structure HandlerEffect where
  sent : Option ChanMsg
  response : Option (Nat × String)
deriving DecidableEq

/-- The success page written by the handler (abbreviated content of the
HTML literal at oauth_usecase.go, lines 117-125). -/
def successPage : String :=
  "Authorization Successful! You can close this window now."

/-- The callback handler (oauth_usecase.go, lines 90-132), for the state
`minted` in scope: on `/oauth2callback` it checks, in order, a non-empty
`error` parameter, a `state` parameter different from `minted`, and an
empty `code` parameter, sending the corresponding error on `errChan`;
otherwise it writes the 200 success page and sends the code on `codeChan`.
Any other path gets `http.NotFound`. -/
def handleCallback (minted : String) (r : CallbackRequest) : HandlerEffect :=
  if r.path = "/oauth2callback" then
    if r.error ≠ "" then
      ⟨some (ChanMsg.errMsg ("OAuth error: " ++ r.error)), none⟩
    else if r.state ≠ minted then
      ⟨some (ChanMsg.errMsg "invalid state parameter"), none⟩
    else if r.code = "" then
      ⟨some (ChanMsg.errMsg "no authorization code received"), none⟩
    else
      ⟨some (ChanMsg.codeMsg r.code), some (200, successPage)⟩
  else
    ⟨none, some (404, "404 page not found")⟩

/-- The first event the 3-way `select` (oauth_usecase.go, lines 147-170)
observes: a code on `codeChan`, an error on `errChan`, or the
`time.After(10 * time.Minute)` timer firing. -/
inductive SelectEvent where
  | gotCode (c : String)
  | gotErr (e : String)
  | timedOut
deriving DecidableEq

/-- The `context.WithTimeout` grace period passed to `server.Shutdown` in
every branch of the select: `5*time.Second`. -/
def shutdownGraceSeconds : Int := 5

/-- The select's timeout: `10 * time.Minute`, in seconds. -/
def selectTimeoutSeconds : Int := 10 * 60

/-- The observable outcome of `CompleteAuthenticationWithServer` after the
select fires: the returned value, the stored token afterwards, the number
of exchange / save calls issued, and the grace periods of the
`server.Shutdown` calls performed (one entry per call). -/
structure FlowOutcome where
  returned : Except String Unit
  stored : Option OToken
  exchangeCalls : Nat
  saveCalls : Nat
  shutdownGraces : List Int

/-- The select of `CompleteAuthenticationWithServer` (oauth_usecase.go,
lines 147-170), given the first event to arrive: every branch shuts the
server down once with the 5-second grace; the code branch then delegates
to `CompleteAuthentication`, the error branch returns the received error,
and the timeout branch returns the "OAuth flow timed out" error. -/
def runSelect (exchange : String → Except String OToken)
    (save : OToken → Except String Unit) (stored0 : Option OToken)
    (ev : SelectEvent) : FlowOutcome :=
  match ev with
  | SelectEvent.gotCode c =>
      let eff := CompleteAuthentication exchange save stored0 c
      ⟨eff.returned, eff.stored, eff.exchangeCalls, eff.saveCalls,
        [shutdownGraceSeconds]⟩
  | SelectEvent.gotErr e =>
      ⟨Except.error e, stored0, 0, 0, [shutdownGraceSeconds]⟩
  | SelectEvent.timedOut =>
      ⟨Except.error "OAuth flow timed out", stored0, 0, 0,
        [shutdownGraceSeconds]⟩

/-- The handler's decision procedure as the specification states it
(spec §4.3 step 4 and claim C1): written from the spec's words, to be
compared with `handleCallback`, which is translated from the source.
If `error` is present (non-empty): signal the failure, reason embedded;
else if `state` differs from the minted one: signal `InvalidState`; else
if `code` is empty: signal `MissingCode`; else respond 200 OK with the
success page and signal the code. -/
def specCallbackDecision (minted : String) (r : CallbackRequest) :
    HandlerEffect :=
  if r.path = "/oauth2callback" then
    if r.error = "" then
      if r.state = minted then
        if r.code = "" then
          ⟨some (ChanMsg.errMsg "no authorization code received"), none⟩
        else
          ⟨some (ChanMsg.codeMsg r.code), some (200, successPage)⟩
      else
        ⟨some (ChanMsg.errMsg "invalid state parameter"), none⟩
    else
      ⟨some (ChanMsg.errMsg ("OAuth error: " ++ r.error)), none⟩
  else
    ⟨none, some (404, "404 page not found")⟩

/-! ## CLI delivery handler (`internal/delivery/cli_handler.go`) -/

/-- `printAlbums` (cli_handler.go, lines 89-99), as the list of lines
logged. -/
def printAlbums (albums : List Album) : List String :=
  if albums.isEmpty then
    ["No albums found."]
  else
    "Albums:" :: albums.map (fun a => "- " ++ a.title ++ " (" ++ a.id ++ ")")

/-- `HandleNextPage` (cli_handler.go, lines 72-86), with the use-case /
repository chain abstracted as `fetchPage`. Returns the list of
`FetchNextPage` page tokens requested and the lines logged. The result's
own `nextPageToken` is never examined. -/
def HandleNextPage (fetchPage : String → Except String AlbumsResponse)
    (nextPageToken : String) : List String × List String :=
  match fetchPage nextPageToken with
  | Except.error e =>
      ([nextPageToken], ["Failed to fetch next page: " ++ e])
  | Except.ok response =>
      if response.albums.length > 0 then
        ([nextPageToken],
          ("Found " ++ decimalOf response.albums.length
            ++ " albums on next page:") :: printAlbums response.albums)
      else
        ([nextPageToken], [])

/-- `HandleListAlbums` (cli_handler.go, lines 26-41): lists the first page
(`listResult`, from `ListAlbums` through the use case), prints it, and —
only when the returned `NextPageToken` is non-empty — chases exactly one
follow-up page through `HandleNextPage`. Returns the list of follow-up
page tokens requested and the lines logged. -/
def HandleListAlbums (listResult : Except String AlbumsResponse)
    (fetchPage : String → Except String AlbumsResponse) :
    List String × List String :=
  match listResult with
  | Except.error e => ([], ["Failed to list albums: " ++ e])
  | Except.ok response =>
      let printed := printAlbums response.albums
      if response.nextPageToken ≠ "" then
        let next := HandleNextPage fetchPage response.nextPageToken
        (next.fst,
          printed ++ ("Next page token: " ++ response.nextPageToken) :: next.snd)
      else
        ([], printed)

/-! ## Helper lemmas -/

theorem decDigitsRev_eq_digits : ∀ (fuel n : Nat), n ≤ fuel →
    decDigitsRev fuel n = Nat.digits 10 n := by
  intro fuel
  induction fuel with
  | zero =>
      intro n hn
      have h0 : n = 0 := Nat.le_zero.mp hn
      subst h0
      simp [decDigitsRev]
  | succ f ih =>
      intro n hn
      by_cases h : n = 0
      · subst h; simp [decDigitsRev]
      · show (if n = 0 then [] else n % 10 :: decDigitsRev f (n / 10)) = _
        rw [if_neg h]
        rw [Nat.digits_def' (by norm_num : 1 < 10) (Nat.pos_of_ne_zero h)]
        have hlt : n / 10 < n := Nat.div_lt_self (Nat.pos_of_ne_zero h) (by norm_num)
        rw [ih (n / 10) (by omega)]

theorem digitChar_inj_on_fin : ∀ (a b : Fin 10),
    Nat.digitChar a.val = Nat.digitChar b.val → a = b := by decide

theorem digitChar_inj_lt (a b : Nat) (ha : a < 10) (hb : b < 10)
    (h : Nat.digitChar a = Nat.digitChar b) : a = b :=
  congrArg Fin.val (digitChar_inj_on_fin ⟨a, ha⟩ ⟨b, hb⟩ h)

theorem map_digitChar_inj : ∀ (l1 l2 : List Nat),
    (∀ x ∈ l1, x < 10) → (∀ x ∈ l2, x < 10) →
    l1.map Nat.digitChar = l2.map Nat.digitChar → l1 = l2 := by
  intro l1
  induction l1 with
  | nil =>
      intro l2 _ _ h
      cases l2 with
      | nil => rfl
      | cons b t => simp at h
  | cons a t ih =>
      intro l2 h1 h2 h
      cases l2 with
      | nil => simp at h
      | cons b t2 =>
          simp only [List.map_cons, List.cons.injEq] at h
          obtain ⟨hab, ht⟩ := h
          have hb : a = b :=
            digitChar_inj_lt a b (h1 a (by simp)) (h2 b (by simp)) hab
          subst hb
          rw [ih t2 (fun x hx => h1 x (by simp [hx]))
            (fun x hx => h2 x (by simp [hx])) ht]

theorem zero_string_ne_digitString : ∀ n : Nat, n ≠ 0 →
    "0" = String.mk ((Nat.digits 10 n).reverse.map Nat.digitChar) → False := by
  intro n hn h
  have hd := congrArg String.data h
  have hlen := congrArg List.length hd
  simp at hlen
  obtain ⟨d, hd1⟩ := List.length_eq_one.mp hlen.symm
  rw [hd1] at hd
  simp at hd
  have hdlt : d < 10 := by
    have hmem : d ∈ Nat.digits 10 n := by rw [hd1]; simp
    exact Nat.digits_lt_base (by norm_num) hmem
  have hdz : d = 0 := digitChar_inj_lt d 0 hdlt (by norm_num) (by rw [← hd]; decide)
  have hzero : n = 0 := by
    have := Nat.ofDigits_digits 10 n
    rw [hd1, hdz] at this
    simpa using this.symm
  exact hn hzero

theorem decimalOf_inj : ∀ (m n : Nat), decimalOf m = decimalOf n → m = n := by
  intro m n h
  unfold decimalOf at h
  by_cases hm : m = 0 <;> by_cases hn : n = 0
  · omega
  · rw [if_pos hm, if_neg hn, decDigitsRev_eq_digits n n le_rfl] at h
    exact absurd h (fun hh => zero_string_ne_digitString n hn hh)
  · rw [if_neg hm, if_pos hn, decDigitsRev_eq_digits m m le_rfl] at h
    exact absurd h.symm (fun hh => zero_string_ne_digitString m hm hh)
  · rw [if_neg hm, if_neg hn, decDigitsRev_eq_digits m m le_rfl,
      decDigitsRev_eq_digits n n le_rfl] at h
    have hd := congrArg String.data h
    simp only at hd
    have hrev : (Nat.digits 10 m).reverse = (Nat.digits 10 n).reverse :=
      map_digitChar_inj _ _
        (fun x hx => Nat.digits_lt_base (by norm_num) (by simpa using hx))
        (fun x hx => Nat.digits_lt_base (by norm_num) (by simpa using hx)) hd
    have hdig : Nat.digits 10 m = Nat.digits 10 n := List.reverse_injective hrev
    have := congrArg (Nat.ofDigits 10) hdig
    rwa [Nat.ofDigits_digits, Nat.ofDigits_digits] at this

theorem mintState_eq_iff : ∀ (t1 t2 : Nat), mintState t1 = mintState t2 ↔ t1 = t2 := by
  intro t1 t2
  constructor
  · intro h
    unfold mintState at h
    have hd := congrArg String.data h
    rw [String.data_append, String.data_append] at hd
    have := List.append_cancel_left hd
    exact decimalOf_inj t1 t2 (String.ext this)
  · intro h; rw [h]

theorem HandleNextPage_fst (fetchPage : String → Except String AlbumsResponse)
    (tok : String) : (HandleNextPage fetchPage tok).fst = [tok] := by
  unfold HandleNextPage
  cases fetchPage tok with
  | error e => rfl
  | ok response =>
      by_cases h : response.albums.length > 0 <;> simp [h]

/-! ## Claim theorems -/

/-- C1: on the `/oauth2callback` route the handler decides by exactly the
ordered case analysis of the spec — non-empty `error` signals the callback
error; else a `state` different from the minted one signals the invalid
state error; else an empty `code` signals the missing-code error; else it
responds 200 OK with the success page and signals the code — and in every
error case the flow returns that error with no token exchange and no
persistence (`exchangeCalls = 0`, `saveCalls = 0`, stored token
unchanged). `specCallbackDecision` is written from the spec's words,
`handleCallback` from the source. -/
theorem c1_callback_route_case_analysis :
    ∀ (minted : String) (r : CallbackRequest)
      (exchange : String → Except String OToken)
      (save : OToken → Except String Unit) (stored0 : Option OToken)
      (m : String),
    handleCallback minted r = specCallbackDecision minted r ∧
    runSelect exchange save stored0 (SelectEvent.gotErr m) =
      ⟨Except.error m, stored0, 0, 0, [shutdownGraceSeconds]⟩ := by
  intro minted r exchange save stored0 m
  refine ⟨?_, rfl⟩
  unfold handleCallback specCallbackDecision
  by_cases hp : r.path = "/oauth2callback"
  · by_cases he : r.error = "" <;> by_cases hs : r.state = minted <;>
      by_cases hc : r.code = "" <;> simp [hp, he, hs, hc]
  · simp [hp]

/-- C2 counterexample: the "AuthState" minted by
`CompleteAuthenticationWithServer` is not random — it is a pure function
of the clock second, so two invocations during Unix second 1700000000 both
receive the very same, fully predictable string
`"random-state-1700000000"`. This refutes "distinct, unpredictable state
strings" for distinct invocations. -/
theorem c2_counterexample_same_second_collision :
    mintState 1700000000 = mintState 1700000000 ∧
    mintState 1700000000 = "random-state-1700000000" :=
  ⟨rfl, by decide⟩

/-- C2 amended: the state minted for an authorization attempt is a
deterministic function of the Unix timestamp of the call; two invocations
of the flow receive distinct state strings exactly when they happen at
distinct Unix seconds, and invocations within the same second receive
identical, predictable states. -/
theorem c2_amended_states_distinct_iff_seconds_distinct :
    ∀ (t1 t2 : Nat), mintState t1 = mintState t2 ↔ t1 = t2 := by
  intro t1 t2
  constructor
  · intro h
    unfold mintState at h
    have hd := congrArg String.data h
    rw [String.data_append, String.data_append] at hd
    exact decimalOf_inj t1 t2 (String.ext (List.append_cancel_left hd))
  · intro h; rw [h]

/-- C3 counterexample: a non-2xx response (status 500) whose body decodes
as an album makes `CreateAlbum` return success — it does not fail with an
`ApiError{500}` as the claim ("same failure modes as list") requires. -/
theorem c3_counterexample_create_ok_on_500 :
    ¬ (200 ≤ 500 ∧ 500 < 300) ∧
    CreateAlbum (fun _ => some ⟨"album-1", "A"⟩)
        (Except.ok ⟨500, "body"⟩) =
      Except.ok ⟨"album-1", "A"⟩ :=
  ⟨by decide, rfl⟩

/-- C3 amended: unlike `list()`, `create(title)` performs no status-code
check at all: its result is independent of the response status, it can
never fail with an `ApiError`, and its only failure modes are a transport
failure (wrapped message) and a body that does not decode. -/
theorem c3_amended_create_skips_status_check :
    ∀ (decode : String → Option Album) (s1 s2 : Nat) (b m : String)
      (k : Nat),
    CreateAlbum decode (Except.ok ⟨s1, b⟩) =
      CreateAlbum decode (Except.ok ⟨s2, b⟩) ∧
    CreateAlbum decode (Except.ok ⟨s1, b⟩) ≠
      Except.error (RepoError.apiStatus k) ∧
    CreateAlbum decode (Except.error m) =
      Except.error (RepoError.transport ("create album failed: " ++ m)) := by
  intro decode s1 s2 b m k
  refine ⟨rfl, ?_, rfl⟩
  unfold CreateAlbum
  cases hdb : decode b <;> simp [hdb]

/-- C4 counterexample: status 204 is 2xx, yet `ListAlbums` fails with an
`ApiError{204}` instead of proceeding to body decoding — the source
accepts exactly 200 (`resp.StatusCode != http.StatusOK`), not all of
2xx. -/
theorem c4_counterexample_204_rejected :
    (200 ≤ 204 ∧ 204 < 300) ∧
    ListAlbums (fun _ => some ⟨[], ""⟩) (Except.ok ⟨204, "x"⟩) =
      Except.error (RepoError.apiStatus 204) :=
  ⟨by decide, rfl⟩

/-- C4 amended: for `list()`, `get(id)` and `fetch_page(token)` calls that
reach the API, the call fails with `ApiError{status}` if and only if the
response status is not exactly 200; every status-200 response proceeds to
body decoding. -/
theorem c4_amended_only_200_proceeds_to_decoding :
    ∀ (decodePage : String → Option AlbumsResponse)
      (decodeAlbum : String → Option Album) (resp : HttpResponse),
    ListAlbums decodePage (Except.ok resp) =
      (if resp.statusCode = 200 then
        (match decodePage resp.body with
         | none => Except.error (RepoError.decodeFail "failed to decode JSON")
         | some data => Except.ok data)
       else Except.error (RepoError.apiStatus resp.statusCode)) ∧
    FetchNextPage decodePage (Except.ok resp) =
      (if resp.statusCode = 200 then
        (match decodePage resp.body with
         | none => Except.error (RepoError.decodeFail "failed to decode JSON")
         | some data => Except.ok data)
       else Except.error (RepoError.apiStatus resp.statusCode)) ∧
    GetAlbumByID decodeAlbum (Except.ok resp) =
      (if resp.statusCode = 200 then
        (match decodeAlbum resp.body with
         | none => Except.error (RepoError.decodeFail "failed to decode album")
         | some album => Except.ok album)
       else Except.error (RepoError.apiStatus resp.statusCode)) := by
  intro decodePage decodeAlbum resp
  refine ⟨?_, ?_, ?_⟩ <;> by_cases h : resp.statusCode = 200 <;>
    simp [ListAlbums, FetchNextPage, GetAlbumByID, readAndParseResponse, h]

/-- C5: `CompleteAuthentication` exchanges first and saves last: whenever
the code-for-token exchange fails, the save collaborator is never invoked
(`saveCalls = 0`), the stored token is unchanged, and the exchange error
is returned unchanged. -/
theorem c5_exchange_failure_never_saves
    (exchange : String → Except String OToken)
    (save : OToken → Except String Unit) (stored0 : Option OToken)
    (code e : String) (h : exchange code = Except.error e) :
    CompleteAuthentication exchange save stored0 code =
      ⟨Except.error e, stored0, 1, 0⟩ := by
  unfold CompleteAuthentication
  rw [h]

/-- Witness for C5 at a concrete failing exchange. -/
theorem c5_witness :
    CompleteAuthentication (fun _ => Except.error "exchange failed")
        (fun _ => Except.ok ()) none "test-auth-code" =
      ⟨Except.error "exchange failed", none, 1, 0⟩ :=
  c5_exchange_failure_never_saves (fun _ => Except.error "exchange failed")
    (fun _ => Except.ok ()) none "test-auth-code" "exchange failed" rfl

/-- C6 counterexample: a successful `SaveToken` over previous content
`"OLD"` writing new record `"NEW"` exposes the intermediate file content
`""` (the `os.Create` truncation) to a concurrent reader — a visible state
that is neither the old nor the new record, refuting atomicity ("a reader
never observes a truncated or partially written token file"). -/
theorem c6_counterexample_truncation_visible :
    (SaveToken (fun _ => "NEW") ⟨"at", "Bearer", some 0, ""⟩
        (some "OLD") true true).fst = Except.ok () ∧
    some "" ∈ (SaveToken (fun _ => "NEW") ⟨"at", "Bearer", some 0, ""⟩
        (some "OLD") true true).snd ∧
    (some "" : Option String) ≠ some "OLD" ∧
    (some "" : Option String) ≠ some "NEW" :=
  ⟨rfl, by decide, by decide, by decide⟩

/-- C6 amended: `save(token)` overwrites the token file by truncating it in
place (`os.Create`) and then writing the encoded record, so it is not
atomic: on success the final visible content is the complete new record,
but the empty truncated file is visible in between whenever the create
step succeeds; if the file cannot be created, save fails leaving the
previous content unchanged. -/
theorem c6_amended_truncate_then_write :
    ∀ (encode : OToken → String) (tok : OToken) (file0 : Option String)
      (w : Bool),
    (SaveToken encode tok file0 true true).fst = Except.ok () ∧
    (SaveToken encode tok file0 true true).snd.getLast? =
      some (some (encode tok)) ∧
    some "" ∈ (SaveToken encode tok file0 true w).snd ∧
    SaveToken encode tok file0 false w =
      (Except.error "failed to create token file", [file0]) := by
  intro encode tok file0 w
  refine ⟨rfl, rfl, ?_, rfl⟩
  cases w <;> simp [SaveToken]

/-- C7: a stored token whose expiry instant lies in the past takes the
"authorization required" path of `AuthenticateClient`: the config is
returned without error, the token is not treated as valid (the
`expiredToken` branch fires), and no refresh-token exchange is attempted
(`refreshCalls = 0`) even when a refresh token is present. -/
theorem c7_expired_token_authorization_required
    (config : OAuthConfig) (tok : OToken) (e now : Int)
    (hexp : tok.expiry = some e) (hpast : e < now) :
    AuthenticateClient (Except.ok config) (Except.ok tok) now =
      ⟨Except.ok config, AuthPath.expiredToken, 0⟩ := by
  have hval : tokenValid tok now = false := by
    unfold tokenValid tokenExpired
    rw [hexp]
    have hdec : decide (e - expiryDelta < now) = true := by
      simp only [decide_eq_true_eq, expiryDelta]
      omega
    simp [hdec]
  unfold AuthenticateClient
  simp [hval]

/-- Witness for C7: a token expired at Unix second 100, with a refresh
token present, checked at Unix second 200. -/
theorem c7_witness :
    (⟨"expired", "Bearer", some 100, "refresh"⟩ : OToken).expiry =
        some 100 ∧
    (100 : Int) < 200 ∧
    AuthenticateClient (Except.ok ⟨"client-id"⟩)
        (Except.ok ⟨"expired", "Bearer", some 100, "refresh"⟩) 200 =
      ⟨Except.ok ⟨"client-id"⟩, AuthPath.expiredToken, 0⟩ :=
  ⟨rfl, by decide,
    c7_expired_token_authorization_required ⟨"client-id"⟩
      ⟨"expired", "Bearer", some 100, "refresh"⟩ 100 200 rfl (by decide)⟩

/-- C8: if no callback arrives before the timer fires, the flow returns
the "OAuth flow timed out" error with no exchange and no persistence; on
each of the three select outcomes the listener is shut down exactly once
with the 5-second grace (one `server.Shutdown` call per branch, recorded
as one grace entry); the timeout is the fixed 10 minutes (600 seconds).
The real-time bound itself is modelled by the grace constant carried on
each shutdown call. -/
theorem c8_timeout_error_and_single_shutdown :
    ∀ (exchange : String → Except String OToken)
      (save : OToken → Except String Unit) (stored0 : Option OToken),
    runSelect exchange save stored0 SelectEvent.timedOut =
      ⟨Except.error "OAuth flow timed out", stored0, 0, 0,
        [shutdownGraceSeconds]⟩ ∧
    (∀ ev : SelectEvent,
      (runSelect exchange save stored0 ev).shutdownGraces =
        [shutdownGraceSeconds]) ∧
    shutdownGraceSeconds = 5 ∧ selectTimeoutSeconds = 600 := by
  intro exchange save stored0
  refine ⟨rfl, ?_, rfl, rfl⟩
  intro ev
  cases ev <;> rfl

/-- C9: the `list` command chases at most one follow-up page: no
`fetch_page` call is issued when the first page's token is empty, and
exactly the single call `fetch_page(t)` is issued when the token is a
non-empty `t` — independently of what the second page (and in particular
its own next-page token) turns out to be, since the statement holds for
every `fetchPage` function. -/
theorem c9_at_most_one_page_chase :
    ∀ (response : AlbumsResponse)
      (fetchPage : String → Except String AlbumsResponse),
    (HandleListAlbums (Except.ok response) fetchPage).fst =
      (if response.nextPageToken = "" then []
       else [response.nextPageToken]) := by
  intro response fetchPage
  unfold HandleListAlbums
  by_cases h : response.nextPageToken = ""
  · simp [h]
  · simp [h, HandleNextPage_fst]

/-- C10: `AuthenticateClient` returns an error exactly when obtaining the
OAuth config fails; every failure of the token load — a missing
`token.json` (open error) as well as a malformed one (decoder yielding
nothing) — is swallowed, returning the config without error through the
same `noToken` branch as "no token exists yet"; and a successful load
also returns the config without error. -/
theorem c10_load_failures_swallowed :
    ∀ (config : OAuthConfig) (e le contents : String)
      (decodeToken : String → Option OToken)
      (loadResult : Except String OToken) (tok : OToken) (now : Int),
    AuthenticateClient (Except.error e) loadResult now =
      ⟨Except.error e, AuthPath.configError, 0⟩ ∧
    AuthenticateClient (Except.ok config)
        (LoadToken (Except.error le) decodeToken) now =
      ⟨Except.ok config, AuthPath.noToken, 0⟩ ∧
    AuthenticateClient (Except.ok config)
        (LoadToken (Except.ok contents) (fun _ => none)) now =
      ⟨Except.ok config, AuthPath.noToken, 0⟩ ∧
    (AuthenticateClient (Except.ok config) (Except.ok tok) now).returned =
      Except.ok config := by
  intro config e le contents decodeToken loadResult tok now
  refine ⟨rfl, rfl, rfl, ?_⟩
  unfold AuthenticateClient
  by_cases h : tokenValid tok now <;> simp [h]

end GPhotosMagic
